import Mathlib

/-!
Verification development for a Facebook webhook relay service (index.js).
The service exposes a GET verification endpoint and a POST message
endpoint, forwards message text to a generative-language API, and relays
the reply through a message-delivery API.

Shallow embedding conventions:
  - A query parameter or JSON field that may be absent is an `Option`.
  - JavaScript truthiness of a string value (absent and empty string are
    both falsy) is the predicate `truthy`.
  - An Express handler that may fall through without setting a response
    returns `Option HttpResponse`.
  - A JavaScript property access that throws a TypeError is modelled with
    `Except JsError`.
  - Outbound calls (generative service, delivery API) are abstracted as
    explicit parameters; dispatched invocations are collected in lists.
-/

/-- An HTTP response: a status code and an optional body.
`res.sendStatus(n)` sends the standard status text as body; only the
status matters for the properties here, so its body is `none`. -/
structure HttpResponse where
  status : Nat
  body : Option String
deriving Repr, DecidableEq

/-- JavaScript truthiness of a possibly-absent string: `undefined` and
the empty string are falsy, every other string is truthy. -/
def truthy : Option String → Bool
  | none => false
  | some s => s ≠ ""

/-- Embedding of the GET /webhook handler (index.js lines 29-45).
`secret` is the configured WEBHOOK_VERIFY_TOKEN environment value, which
may itself be unset. The handler reads `hub.mode`, `hub.verify_token`
and `hub.challenge` from the query string; when `mode && token` is falsy
it falls through without setting any response (`none`). -/
def webhookGet (secret : Option String) (mode token challenge : Option String) :
    Option HttpResponse :=
  if truthy mode && truthy token then
    if mode = some "subscribe" && token = secret then
      some ⟨200, challenge⟩
    else
      some ⟨403, none⟩
  else
    none

/-- A `sender` object of a messaging event; its `id` field may be absent. -/
structure Sender where
  id : Option String
deriving Repr, DecidableEq

/-- A `message` object of a messaging event; its `text` field may be absent. -/
structure Message where
  text : Option String
deriving Repr, DecidableEq

/-- One element of an entry `messaging` array. `sender` may be absent
(reading `.id` on it then throws); `message` is read with optional
chaining (`message?.text`) and so never throws. -/
structure MessagingEvent where
  sender : Option Sender
  message : Option Message
deriving Repr, DecidableEq

/-- One element of the body `entry` array; its `messaging` field may be
absent (indexing `[0]` on it then throws). -/
structure Entry where
  messaging : Option (List MessagingEvent)
deriving Repr, DecidableEq

/-- A POST body: the `object` field and the `entry` array, either of
which may be absent in the incoming JSON. -/
structure PostBody where
  object : Option String
  entry : Option (List Entry)
deriving Repr, DecidableEq

/-- A thrown JavaScript error. The only errors the handler can raise are
TypeErrors from property access on `undefined`. -/
inductive JsError where
  | typeError
deriving Repr, DecidableEq

/-- A dispatched call to `handleMessage`: the sender id (which may be
`undefined`) and the message text. -/
abbrev Dispatch := Option String × String

/-- Embedding of the per-entry body of the `forEach` loop (index.js
lines 55-67). Reads `entry.messaging[0]` (throws if `messaging` is
absent), then `.sender.id` (throws if the event or its `sender` is
absent), then `message?.text`; dispatches `handleMessage` exactly when
the text is truthy. Returns the dispatch made, if any. -/
def processEntry (e : Entry) : Except JsError (Option Dispatch) :=
  match e.messaging with
  | none => .error .typeError
  | some evs =>
    match evs.head? with
    | none => .error .typeError
    | some ev =>
      match ev.sender with
      | none => .error .typeError
      | some s =>
        match ev.message.bind Message.text with
        | none => .ok none
        | some t => if t = "" then .ok none else .ok (some (s.id, t))

/-- Sequences `processEntry` over the entries as `forEach` does: a throw
in one iteration aborts the loop and propagates. Collects the dispatches
of the successful prefix in order. -/
def runEntries : List Entry → Except JsError (List Dispatch)
  | [] => .ok []
  | e :: rest => do
    let d ← processEntry e
    let ds ← runEntries rest
    .ok (d.toList ++ ds)

/-- Embedding of the POST /webhook handler (index.js lines 49-76). When
`body.object === "page"` it iterates the entries (reading `.forEach` on
an absent `entry` throws) and then sends 200 "EVENT_RECEIVED"; a throw
inside the loop prevents any response. Otherwise it sends 404. The
returned list records every `handleMessage` dispatch made. -/
def webhookPost (body : PostBody) : Except JsError (HttpResponse × List Dispatch) :=
  if body.object = some "page" then
    match body.entry with
    | none => .error .typeError
    | some entries => do
      let ds ← runEntries entries
      .ok (⟨200, some "EVENT_RECEIVED"⟩, ds)
  else
    .ok (⟨404, none⟩, [])

/-- The apostrophe character, used to build string literals. -/
def apos : Char := Char.ofNat 39

/-- The fixed fallback apology string sent when the generative call
fails (index.js line 102). -/
def fallbackText : String :=
  "Sorry, I" ++ String.singleton apos ++
    "m having a little trouble right now. Please try again later."

/-- The fixed prompt template wrapped around the user text
(index.js line 90). -/
def promptFor (messageText : String) : String :=
  "You are a helpful assistant for our Facebook Page. Please answer the following question concisely and friendly:\n\nUser: "
    ++ messageText ++ "\nAssistant:"

/-- A request issued to the message-delivery API: `recipient.id` and
`message.text` of the outbound JSON. -/
structure SendRequest where
  recipientId : Option String
  text : String
deriving Repr, DecidableEq

/-- Embedding of `handleMessage` (index.js lines 85-104). The outcome of
the generative-language round trip (generateContent, then response, then
text(), any of which may fail) is abstracted as `gen : String → Except
String String` applied to the built prompt. On success the generated
text is forwarded to `sendReply`; on any failure the `catch` block
forwards the fixed fallback string instead. The function is total: no
failure propagates to the caller. Returns the single delivery request
handed to `sendReply`. -/
def handleMessage (gen : String → Except String String)
    (senderId : Option String) (messageText : String) : SendRequest :=
  match gen (promptFor messageText) with
  | .ok aiText => ⟨senderId, aiText⟩
  | .error _ => ⟨senderId, fallbackText⟩

/-- Embedding of `sendReply` (index.js lines 111-129). The delivery API
outcome is abstracted as `api : Except String Unit`. The function issues
exactly one delivery request; on failure it logs the error detail and
does nothing else. It is total: no failure propagates to the caller.
Returns the requests issued and the log lines produced. -/
def sendReply (api : Except String Unit) (recipientId : Option String)
    (text : String) : List SendRequest × List String :=
  let requests := [SendRequest.mk recipientId text]
  match api with
  | .ok _ => (requests, ["Reply sent successfully!"])
  | .error e => (requests, ["Unable to send message: " ++ e])

/-- Truncates a messaging array to its first element, for stating that
everything after `messaging[0]` is ignored. -/
def truncEntry (e : Entry) : Entry :=
  ⟨e.messaging.map (List.take 1)⟩

/-- Truncates every entry of a POST body to its first messaging event. -/
def truncBody (b : PostBody) : PostBody :=
  ⟨b.object, b.entry.map (List.map truncEntry)⟩

/-- Boolean well-formedness of an entry: the messaging array is present
and non-empty and its first event has a sender object. Exactly the
entries on which `processEntry` does not throw. -/
def entryOkB (e : Entry) : Bool :=
  match e.messaging with
  | some (ev :: _) => ev.sender.isSome
  | _ => false

theorem processEntry_ok_of_entryOkB (e : Entry) (h : entryOkB e = true) :
    ∃ d, processEntry e = .ok d := by
  rcases e with ⟨m⟩
  match m with
  | none => simp [entryOkB] at h
  | some [] => simp [entryOkB] at h
  | some (ev :: rest) =>
    rcases hs : ev.sender with _ | s
    · simp [entryOkB, hs] at h
    · rcases ht : ev.message.bind Message.text with _ | t
      · exact ⟨none, by simp [processEntry, hs, ht]⟩
      · by_cases he : t = ""
        · exact ⟨none, by simp [processEntry, hs, ht, he]⟩
        · exact ⟨some (s.id, t), by simp [processEntry, hs, ht, he]⟩

theorem runEntries_ok_of_entryOkB (l : List Entry)
    (h : ∀ e ∈ l, entryOkB e = true) : ∃ ds, runEntries l = .ok ds := by
  induction l with
  | nil => exact ⟨[], rfl⟩
  | cons e rest ih =>
    obtain ⟨d, hd⟩ := processEntry_ok_of_entryOkB e (h e (by simp))
    obtain ⟨ds, hds⟩ := ih (fun x hx => h x (by simp [hx]))
    exact ⟨d.toList ++ ds, by simp only [runEntries, hd, hds]; rfl⟩

/-- C1 counterexample: with the configured secret equal to the empty
string and a request whose mode is "subscribe" and whose token is the
empty string (so it equals the secret), the handler sets no response at
all instead of responding 200 with the challenge, because the outer
`mode && token` presence check treats the empty token string as falsy. -/
theorem c1_counterexample :
    webhookGet (some "") (some "subscribe") (some "") (some "42") = none ∧
    webhookGet (some "") (some "subscribe") (some "") (some "42") ≠
      some ⟨200, some "42"⟩ := by
  constructor
  · rfl
  · decide

/-- C1 (amended): for every GET verification request whose mode is
"subscribe" and whose token equals the configured secret, provided the
token is additionally truthy (present and non-empty), the handler
responds 200 with body exactly the supplied challenge and has no other
effect on the response. -/
theorem verify_subscribe_matching_token_200
    (secret mode token challenge : Option String)
    (hm : mode = some "subscribe") (ht : token = secret)
    (htr : truthy token = true) :
    webhookGet secret mode token challenge = some ⟨200, challenge⟩ := by
  subst hm ht
  have h1 : truthy (some "subscribe") = true := by decide
  simp [webhookGet, h1, htr]

theorem verify_subscribe_matching_token_200_witness :
    webhookGet (some "tok") (some "subscribe") (some "tok") (some "ch") =
      some ⟨200, some "ch"⟩ :=
  verify_subscribe_matching_token_200 (some "tok") (some "subscribe")
    (some "tok") (some "ch") rfl rfl (by decide)

/-- C2 counterexample: a request with mode "subscribe" and a present but
empty token does not match the configured secret "SECRET", yet the
handler responds with nothing at all rather than 403, because the outer
`mode && token` presence check treats the empty token string as falsy. -/
theorem c2_counterexample :
    webhookGet (some "SECRET") (some "subscribe") (some "") (some "42") = none ∧
    webhookGet (some "SECRET") (some "subscribe") (some "") (some "42") ≠
      some ⟨403, none⟩ := by
  constructor
  · rfl
  · decide

/-- C2 (amended): for every GET verification request whose mode and
token parameters are both truthy (present and non-empty) and whose
token does not equal the configured secret, the handler responds 403. -/
theorem verify_mismatched_token_403
    (secret mode token challenge : Option String)
    (hm : truthy mode = true) (ht : truthy token = true)
    (hne : token ≠ secret) :
    webhookGet secret mode token challenge = some ⟨403, none⟩ := by
  simp [webhookGet, hm, ht, hne]

theorem verify_mismatched_token_403_witness :
    webhookGet (some "SECRET") (some "subscribe") (some "WRONG") (some "123") =
      some ⟨403, none⟩ :=
  verify_mismatched_token_403 (some "SECRET") (some "subscribe")
    (some "WRONG") (some "123") (by decide) (by decide) (by decide)

/-- C3 counterexample: a POST body with object "page" whose single entry
has an empty messaging array makes the handler throw a TypeError while
reading `entry.messaging[0].sender`, so it does not respond 200 with
EVENT_RECEIVED for that body. -/
theorem c3_counterexample :
    webhookPost ⟨some "page", some [⟨some []⟩]⟩ = .error .typeError ∧
    webhookPost ⟨some "page", some [⟨some []⟩]⟩ ≠
      .ok (⟨200, some "EVENT_RECEIVED"⟩, []) :=
  ⟨rfl, fun h => Except.noConfusion h⟩

/-- C3 (amended): for every POST body with object "page" whose entries
are each well formed (messaging array present and non-empty, first event
carrying a sender), the handler responds 200 with the fixed body
EVENT_RECEIVED, regardless of the presence or content of message text in
any event and of the outcome of any per-message handling. -/
theorem post_page_acknowledges_200
    (entries : List Entry) (h : ∀ e ∈ entries, entryOkB e = true) :
    ∃ ds, webhookPost ⟨some "page", some entries⟩ =
      .ok (⟨200, some "EVENT_RECEIVED"⟩, ds) := by
  obtain ⟨ds, hds⟩ := runEntries_ok_of_entryOkB entries h
  exact ⟨ds, by simp only [webhookPost, hds]; rfl⟩

theorem post_page_acknowledges_200_witness :
    ∃ ds, webhookPost ⟨some "page",
        some [⟨some [⟨some ⟨some "U1"⟩, none⟩]⟩]⟩ =
      .ok (⟨200, some "EVENT_RECEIVED"⟩, ds) :=
  post_page_acknowledges_200 [⟨some [⟨some ⟨some "U1"⟩, none⟩]⟩] (by decide)

/-- C8: for every GET verification request in which the mode parameter
or the token parameter is absent, the handler sets no response at all. -/
theorem absent_param_no_response
    (secret mode token challenge : Option String)
    (h : mode = none ∨ token = none) :
    webhookGet secret mode token challenge = none := by
  rcases h with h | h
  · subst h; simp [webhookGet, truthy]
  · subst h; simp [webhookGet, truthy]

theorem absent_param_no_response_witness :
    webhookGet (some "SECRET") none (some "SECRET") (some "42") = none :=
  absent_param_no_response (some "SECRET") none (some "SECRET") (some "42")
    (Or.inl rfl)

theorem processEntry_trunc (e : Entry) :
    processEntry (truncEntry e) = processEntry e := by
  rcases e with ⟨m⟩
  match m with
  | none => rfl
  | some [] => rfl
  | some (ev :: rest) => rfl

theorem runEntries_trunc (l : List Entry) :
    runEntries (l.map truncEntry) = runEntries l := by
  induction l with
  | nil => rfl
  | cons e rest ih => simp only [List.map, runEntries, processEntry_trunc, ih]

/-- C9: only the first element of each entry messaging array determines
the outcome: truncating every messaging array to its first element
changes neither the response nor the dispatches, so every messaging
event after the first is dropped with no dispatch or response effect. -/
theorem only_first_messaging_event (b : PostBody) :
    webhookPost (truncBody b) = webhookPost b := by
  rcases b with ⟨obj, ent⟩
  rcases ent with _ | entries
  · rfl
  · simp only [webhookPost, truncBody, Option.map_some', runEntries_trunc]

theorem processEntry_single_some (ev : MessagingEvent) (s : Sender)
    (t : String) (hs : ev.sender = some s)
    (ht : ev.message.bind Message.text = some t) (hne : t ≠ "") :
    processEntry ⟨some [ev]⟩ = .ok (some (s.id, t)) := by
  simp [processEntry, hs, ht, hne]

theorem runEntries_single (e : Entry) (d : Option Dispatch)
    (h : processEntry e = .ok d) : runEntries [e] = .ok d.toList := by
  simp only [runEntries, h]
  show Except.ok (d.toList ++ []) = Except.ok d.toList
  rw [List.append_nil]

theorem webhookPost_single (e : Entry) (d : Option Dispatch)
    (h : processEntry e = .ok d) :
    webhookPost ⟨some "page", some [e]⟩ =
      .ok (⟨200, some "EVENT_RECEIVED"⟩, d.toList) := by
  simp only [webhookPost, runEntries_single e d h]
  rfl

/-- C4: with a well formed single-event entry (sender present), (i) when
the message text is present and non-empty the handler dispatches the
Message Responder exactly once with exactly the sender id and the text,
and responds 200 EVENT_RECEIVED; (ii) any dispatch that occurs arises
from a present non-empty message text with exactly those arguments;
(iii) an entry lacking message text causes no dispatch while the overall
response is still 200 EVENT_RECEIVED. -/
theorem dispatch_iff_text_truthy
    (ev : MessagingEvent) (s : Sender) (hs : ev.sender = some s) :
    (∀ t, ev.message.bind Message.text = some t → t ≠ "" →
        webhookPost ⟨some "page", some [⟨some [ev]⟩]⟩ =
          .ok (⟨200, some "EVENT_RECEIVED"⟩, [(s.id, t)]))
    ∧ (∀ d, processEntry ⟨some [ev]⟩ = .ok (some d) →
        ∃ t, ev.message.bind Message.text = some t ∧ t ≠ "" ∧ d = (s.id, t))
    ∧ (ev.message.bind Message.text = none →
        webhookPost ⟨some "page", some [⟨some [ev]⟩]⟩ =
          .ok (⟨200, some "EVENT_RECEIVED"⟩, [])) := by
  refine ⟨?_, ?_, ?_⟩
  · intro t ht hne
    simpa using
      webhookPost_single _ _ (processEntry_single_some ev s t hs ht hne)
  · intro d hd
    rcases hmt : ev.message.bind Message.text with _ | t
    · simp [processEntry, hs, hmt] at hd
    · by_cases he : t = ""
      · simp [processEntry, hs, hmt, he] at hd
      · refine ⟨t, rfl, he, ?_⟩
        have h3 := (processEntry_single_some ev s t hs hmt he).symm.trans hd
        simp only [Except.ok.injEq, Option.some.injEq] at h3
        exact h3.symm
  · intro hmt
    have h0 : processEntry ⟨some [ev]⟩ = .ok none := by
      simp [processEntry, hs, hmt]
    simpa using webhookPost_single _ _ h0

theorem dispatch_iff_text_truthy_witness :
    webhookPost
        ⟨some "page", some [⟨some [⟨some ⟨some "U1"⟩, some ⟨some "Hi"⟩⟩]⟩]⟩ =
      .ok (⟨200, some "EVENT_RECEIVED"⟩, [(some "U1", "Hi")]) :=
  (dispatch_iff_text_truthy ⟨some ⟨some "U1"⟩, some ⟨some "Hi"⟩⟩
    ⟨some "U1"⟩ rfl).1 "Hi" rfl (by decide)

/-- C5: whenever the generative-language call for a message fails, the
failure is caught locally and the delivery step is invoked with the same
sender identifier and exactly the fixed fallback string; since the
embedded `handleMessage` is a total function, no failure propagates to
its caller. -/
theorem gen_failure_sends_fallback (gen : String → Except String String)
    (senderId : Option String) (messageText e : String)
    (h : gen (promptFor messageText) = .error e) :
    handleMessage gen senderId messageText = ⟨senderId, fallbackText⟩ := by
  simp [handleMessage, h]

theorem gen_failure_sends_fallback_witness :
    handleMessage (fun _ => .error "boom") (some "U1") "Hi" =
      ⟨some "U1", fallbackText⟩ :=
  gen_failure_sends_fallback (fun _ => .error "boom") (some "U1") "Hi"
    "boom" rfl

/-- C6: for every POST body whose object field is not "page", the
handler responds 404 and the dispatch list is empty, so no generative
call and no delivery call occurs. -/
theorem non_page_404_no_dispatch (body : PostBody)
    (h : body.object ≠ some "page") :
    webhookPost body = .ok (⟨404, none⟩, []) := by
  simp [webhookPost, h]

theorem non_page_404_no_dispatch_witness :
    webhookPost
        ⟨some "user", some [⟨some [⟨some ⟨some "U1"⟩, some ⟨some "Hi"⟩⟩]⟩]⟩ =
      .ok (⟨404, none⟩, []) :=
  non_page_404_no_dispatch _ (by decide)

/-- C7: every invocation of `sendReply` issues exactly one delivery
request, built from its own recipient and text arguments, whatever the
delivery API outcome, and on failure the error detail is logged; the
embedded `sendReply` is a total function, so a failure never throws or
rejects to the caller and is never retried. -/
theorem sendReply_swallows_failure (api : Except String Unit)
    (recipientId : Option String) (text e : String) :
    (sendReply api recipientId text).1 = [⟨recipientId, text⟩] ∧
    (sendReply (.error e) recipientId text).2 =
      ["Unable to send message: " ++ e] := by
  cases api <;> exact ⟨rfl, rfl⟩

/-- C10: the POST handler is not total over bodies with object "page":
with an entry whose messaging array is absent, or whose first messaging
event lacks a sender, it throws a TypeError before any response is
produced, so no 200 acknowledgment is sent for that request. -/
theorem post_not_total :
    webhookPost ⟨some "page", some [Entry.mk none]⟩ = .error .typeError ∧
    webhookPost ⟨some "page", some [⟨some [⟨none, some ⟨some "Hi"⟩⟩]⟩]⟩ =
      .error .typeError :=
  ⟨rfl, rfl⟩
